import Mathlib

/-!
Verification of the nyc-apartment-scraper repository.

This file gives a shallow embedding, in Lean 4, of the parts of the
repository that the specification talks about:

* src/filter.py — the deterministic classification strategy
  (ApartmentFilter): price extraction by a fixed cascade of five regular
  expressions, fuzzy/exact term matching, and the filter pipeline
  filter_listing;
* src/ai_parser.py — the LLM classification strategy (AIListingParser):
  parse_listing over a decoded model response, with its exception handling;
* src/storage.py — the deduplication store (SeenPostsStorage): load, save
  with the 10,000-entry trim, mark_many_seen, is_seen.

Python strings are modelled as Lean String / List Char (ASCII semantics for
the character classes used by the code), machine integers as Int/Nat (the
code never overflows: Python ints are unbounded), JSON documents as an
inductive Json type, exceptions as Except / explicit error components, and
the external fuzzy scorer rapidfuzz.fuzz.ratio as an abstract function
parameter (every theorem below holds for each choice of scorer).  Python
set iteration order is unspecified, so wherever the code converts a set to
a list (storage.py line 49) the model takes the enumeration as an explicit
argument constrained to be a permutation of the set.
-/

namespace ApartmentScraper

/-! ### Python character and string helpers -/

/-- ASCII whitespace, the regex class \s and the separator set of str.split. -/
def isSpaceChar (c : Char) : Bool :=
  c = ' ' || c = '\t' || c = '\n' || c = '\r' || c = '\x0b' || c = '\x0c'

/-- Word characters, the regex class \w (ASCII model). -/
def isWordChar (c : Char) : Bool :=
  c.isAlpha || c.isDigit || c = '_'

/-- Characters accepted by the regex class [\d,] of the price patterns. -/
def isDigitComma (c : Char) : Bool :=
  c.isDigit || c = ','

/-- Python str.lower (ASCII model). -/
def pyLower (s : String) : String :=
  ⟨s.data.map Char.toLower⟩

/-- Case-insensitive character comparison, for literals compiled with
re.IGNORECASE. -/
def charCI (a b : Char) : Bool :=
  a.toLower == b.toLower

/-- Case-insensitive literal prefix test, for literals compiled with
re.IGNORECASE. -/
def prefixCI : List Char → List Char → Bool
  | [], _ => true
  | _ :: _, [] => false
  | p :: ps, c :: cs => charCI p c && prefixCI ps cs

/-- Python substring containment: the expression sub in s on str. -/
def subIn (pat : List Char) : List Char → Bool
  | [] => decide (pat = [])
  | c :: cs => pat.isPrefixOf (c :: cs) || subIn pat cs

/-- Python substring containment on String values. -/
def strContains (s sub : String) : Bool :=
  subIn sub.data s.data

/-! ### Price extraction (src/filter.py, lines 21-27 and 48-64)

Each of the five entries of ApartmentFilter.PRICE_PATTERNS is compiled by
hand to a scanner that attempts a match anchored at the head of the text and
returns the single capturing group ([\d,]+) together with the rest of the
text after the match.  The patterns concatenate character classes that are
pairwise disjoint, so the greedy scan needs no backtracking; the ordered
alternation (?:mo|month|m) always commits to the branch mo when the text
offers it, exactly as the Python regex engine does, because nothing follows
the alternation inside the pattern. -/

/-- Scanner for PRICE_PATTERNS[0], the regex
\$\s*([\d,]+)\s*(?:/\s*(?:mo|month|m))? anchored at the head. -/
def matchDollar : List Char → Option (List Char × List Char)
  | '$' :: r =>
    let r1 := r.dropWhile isSpaceChar
    let digits := r1.takeWhile isDigitComma
    let r2 := r1.dropWhile isDigitComma
    if digits = [] then none
    else
      let r3 := r2.dropWhile isSpaceChar
      match r3 with
      | '/' :: r4 =>
        let r5 := r4.dropWhile isSpaceChar
        if prefixCI ['m', 'o'] r5 then some (digits, r5.drop 2)
        else if prefixCI ['m'] r5 then some (digits, r5.drop 1)
        else some (digits, r3)
      | _ => some (digits, r3)
  | _ => none

/-- Scanner for PRICE_PATTERNS[1], the regex
([\d,]+)\s*(?:/\s*(?:mo|month|m)) anchored at the head. -/
def matchPerMonth (cs : List Char) : Option (List Char × List Char) :=
  let digits := cs.takeWhile isDigitComma
  let r1 := cs.dropWhile isDigitComma
  if digits = [] then none
  else
    let r2 := r1.dropWhile isSpaceChar
    match r2 with
    | '/' :: r3 =>
      let r4 := r3.dropWhile isSpaceChar
      if prefixCI ['m', 'o'] r4 then some (digits, r4.drop 2)
      else if prefixCI ['m'] r4 then some (digits, r4.drop 1)
      else none
    | _ => none

/-- Scanner for PRICE_PATTERNS[2], the regex \$\s*([\d,]+) anchored at the
head. -/
def matchDollarBare : List Char → Option (List Char × List Char)
  | '$' :: r =>
    let r1 := r.dropWhile isSpaceChar
    let digits := r1.takeWhile isDigitComma
    let r2 := r1.dropWhile isDigitComma
    if digits = [] then none else some (digits, r2)
  | _ => none

/-- Scanner for PRICE_PATTERNS[3], the regex rent[:\s]+\$?\s*([\d,]+)
anchored at the head. -/
def matchRent (cs : List Char) : Option (List Char × List Char) :=
  if prefixCI ['r', 'e', 'n', 't'] cs then
    let r1 := cs.drop 4
    let seps := r1.takeWhile (fun c => c = ':' || isSpaceChar c)
    let r2 := r1.dropWhile (fun c => c = ':' || isSpaceChar c)
    if seps = [] then none
    else
      let r3 := match r2 with | '$' :: t => t | _ => r2
      let r4 := r3.dropWhile isSpaceChar
      let digits := r4.takeWhile isDigitComma
      let r5 := r4.dropWhile isDigitComma
      if digits = [] then none else some (digits, r5)
  else none

/-- Scanner for PRICE_PATTERNS[4], the regex asking\s+\$?\s*([\d,]+)
anchored at the head. -/
def matchAsking (cs : List Char) : Option (List Char × List Char) :=
  if prefixCI ['a', 's', 'k', 'i', 'n', 'g'] cs then
    let r1 := cs.drop 6
    let sp := r1.takeWhile isSpaceChar
    let r2 := r1.dropWhile isSpaceChar
    if sp = [] then none
    else
      let r3 := match r2 with | '$' :: t => t | _ => r2
      let r4 := r3.dropWhile isSpaceChar
      let digits := r4.takeWhile isDigitComma
      let r5 := r4.dropWhile isDigitComma
      if digits = [] then none else some (digits, r5)
  else none

/-- Python re.findall for a single-group pattern: scan left to right, at each
position try the anchored match; on success emit the group and resume after
the match, otherwise advance one character.  Every scanner above consumes at
least one character on success, so fuel equal to the text length is exact. -/
def findallFrom (step : List Char → Option (List Char × List Char)) :
    Nat → List Char → List (List Char)
  | 0, _ => []
  | _ + 1, [] => []
  | fuel + 1, c :: cs =>
    match step (c :: cs) with
    | some (cap, rest) => cap :: findallFrom step fuel rest
    | none => findallFrom step fuel cs

/-- Python regex.findall(text) for one compiled price pattern. -/
def findall (step : List Char → Option (List Char × List Char))
    (text : List Char) : List (List Char) :=
  findallFrom step text.length text

/-- Results of regex.findall for the five compiled price patterns, in the
order of ApartmentFilter.PRICE_PATTERNS (filter.py line 53). -/
def price_regex_findalls (text : String) : List (List (List Char)) :=
  [findall matchDollar text.data,
   findall matchPerMonth text.data,
   findall matchDollarBare text.data,
   findall matchRent text.data,
   findall matchAsking text.data]

/-- Decimal value of a digit string. -/
def digitsToNat (l : List Char) : Nat :=
  l.foldl (fun a c => a * 10 + (c.toNat - '0'.toNat)) 0

/-- Python int(match.replace(",", "")) of filter.py line 58: strip the
thousands separators and convert; none models the ValueError that the code
catches and skips. -/
def toPrice (cap : List Char) : Option Int :=
  let stripped := cap.filter (fun c => c ≠ ',')
  if stripped = [] then none
  else if stripped.all Char.isDigit then some ((digitsToNat stripped : Nat) : Int)
  else none

/-- Inner loop of ApartmentFilter.extract_price (filter.py lines 55-63): walk
the captures of one pattern, skip unparsable ones, return the first whose
value lies in the sanity band [500, 15000]. -/
def loopMatches : List (List Char) → Option Int
  | [] => none
  | m :: ms =>
    match toPrice m with
    | some price => if 500 ≤ price ∧ price ≤ 15000 then some price else loopMatches ms
    | none => loopMatches ms

/-- Outer loop of ApartmentFilter.extract_price (filter.py lines 53-64): try
the patterns in their fixed order. -/
def loopRegexes : List (List (List Char)) → Option Int
  | [] => none
  | caps :: rest =>
    match loopMatches caps with
    | some p => some p
    | none => loopRegexes rest

/-- ApartmentFilter.extract_price (filter.py lines 48-64). -/
def extract_price (text : String) : Option Int :=
  loopRegexes (price_regex_findalls text)

/-- Plausibility band of filter.py line 60, as a Boolean predicate. -/
def inBand (p : Int) : Bool :=
  decide (500 ≤ p ∧ p ≤ 15000)

/-! ### Term matching (src/filter.py, lines 66-119)

ApartmentFilter._fuzzy_match_any lowers the text, sorts the configured terms
by length (longest first, Python sorted is stable), first looks for an exact
substring occurrence with word boundaries (the regex \b + re.escape(term) +
\b searched in the lowered text), and only then falls back to fuzzy matching
of single-word terms against the individual words of the text with
rapidfuzz.fuzz.ratio.  The Python tuple (matched, matched_term) is modelled
as Option String: the boolean is exactly the isSome of the term. -/

/-- Word-character status of a position, absent positions count as non-word
(regex \b semantics at the ends of the text). -/
def wordAt : Option Char → Bool
  | none => false
  | some c => isWordChar c

/-- Match of \b-escaped term-\b anchored at the current position of the
text, where prev is the character just before that position. -/
def wbHere (term : List Char) (prev : Option Char) (text : List Char) : Bool :=
  match term with
  | [] => wordAt prev != wordAt text.head?
  | _ :: _ =>
    term.isPrefixOf text &&
    (wordAt prev != wordAt term.head?) &&
    (wordAt term.getLast? != wordAt (text.drop term.length).head?)

/-- Python re.search of the pattern \b + re.escape(term) + \b: try every
position of the text, including the position after its last character. -/
def wbSearch (term : List Char) : Option Char → List Char → Bool
  | prev, [] => wbHere term prev []
  | prev, c :: cs => wbHere term prev (c :: cs) || wbSearch term (some c) cs

/-- Occurrence of a configured term in the lowered text with word
boundaries: the condition that makes the exact tier of _fuzzy_match_any
accept the term. -/
def wbOccurs (term : String) (text : String) : Bool :=
  wbSearch term.data none (pyLower text).data

/-- Ordering key of filter.py line 75: sorted(terms, key=len, reverse=True). -/
def lenGe (a b : String) : Prop :=
  b.length ≤ a.length

instance : DecidableRel lenGe := fun a b => Nat.decLe b.length a.length

instance : IsTotal String lenGe := ⟨fun a b => Nat.le_total b.length a.length⟩

instance : IsTrans String lenGe := ⟨fun _ _ _ h1 h2 => Nat.le_trans h2 h1⟩

/-- Python sorted(terms, key=len, reverse=True) (filter.py line 75): a stable
sort placing longer terms first.  List.insertionSort with the reflexive
longest-first relation is stable in the same way Python sorted is. -/
def sortByLenDesc (terms : List String) : List String :=
  terms.insertionSort lenGe

/-- Python str.split() with no separator: split on runs of whitespace and
drop empty pieces.  Fuel equal to the length of the list is exact because
every step consumes at least one character. -/
def splitWSFrom : Nat → List Char → List (List Char)
  | 0, _ => []
  | _ + 1, [] => []
  | fuel + 1, c :: cs =>
    if isSpaceChar c then splitWSFrom fuel cs
    else
      (c :: cs).takeWhile (fun d => !isSpaceChar d) ::
        splitWSFrom fuel ((c :: cs).dropWhile (fun d => !isSpaceChar d))

/-- Python str.split() with no separator. -/
def splitWS (cs : List Char) : List (List Char) :=
  splitWSFrom cs.length cs

/-- Cleaned word of filter.py line 93: re.sub of the class [^\w\s] with the
empty replacement keeps only word characters and whitespace. -/
def cleanWord (w : List Char) : List Char :=
  w.filter (fun c => isWordChar c || isSpaceChar c)

/-- Fuzzy tier of _fuzzy_match_any (filter.py lines 84-97) for one term: the
term must be a single word, and some word of the text, once cleaned of
punctuation, must have length at least 3, length within 2 of the term, and a
fuzz score at or above the threshold.  The external rapidfuzz scorer is the
abstract parameter fz. -/
def fuzzyTierHit (fz : String → String → Nat) (threshold : Nat)
    (words : List (List Char)) (term : String) : Bool :=
  if (splitWS term.data).length > 1 then false
  else
    words.any (fun w =>
      let cw := cleanWord w
      decide (3 ≤ cw.length) &&
      decide (max cw.length term.length - min cw.length term.length ≤ 2) &&
      decide (threshold ≤ fz ⟨cw⟩ term))

/-- Body of ApartmentFilter._fuzzy_match_any (filter.py lines 66-99) applied
to the already lowered text: exact word-boundary tier over the terms sorted
longest first, then the fuzzy tier over the words of the text. -/
def fuzzyMatchAnyLower (fz : String → String → Nat) (threshold : Nat)
    (tl : String) (terms : List String) : Option String :=
  let sorted := sortByLenDesc terms
  match sorted.find? (fun t => wbSearch t.data none tl.data) with
  | some t => some t
  | none =>
    let words := splitWS tl.data
    sorted.find? (fuzzyTierHit fz threshold words)

/-- ApartmentFilter._fuzzy_match_any (filter.py lines 66-99): the text is
lowered first (line 72), so the function only depends on the lowered text. -/
def fuzzyMatchAny (fz : String → String → Nat) (threshold : Nat)
    (text : String) (terms : List String) : Option String :=
  fuzzyMatchAnyLower fz threshold (pyLower text) terms

/-! ### The deterministic filter pipeline (src/filter.py, lines 29-47 and
101-194) -/

/-- Configuration of ApartmentFilter (filter.py lines 29-46).  The compiled
price regexes carry no state beyond the class-level pattern list, so they do
not appear here. -/
structure FilterCfg where
  price_min : Int
  price_max : Int
  apartment_types : List String
  neighborhoods : List String
  exclude_terms : List String
  fuzzy_threshold : Nat

/-- ApartmentFilter.__init__ (filter.py lines 29-46): the three term lists
are lowered on construction. -/
def mkApartmentFilter (price_min price_max : Int)
    (apartment_types neighborhoods exclude_terms : List String)
    (fuzzy_threshold : Nat) : FilterCfg :=
  { price_min := price_min
    price_max := price_max
    apartment_types := apartment_types.map pyLower
    neighborhoods := neighborhoods.map pyLower
    exclude_terms := exclude_terms.map pyLower
    fuzzy_threshold := fuzzy_threshold }

/-- A Reddit post as the pipeline reads it: post.get with default "" makes
an absent field the empty string. -/
structure Post where
  title : String
  selftext : String
  flair : String

/-- Result dictionary of filter_listing (filter.py lines 137-143). -/
structure FilterResult where
  passed : Bool
  reasons : List String
  extracted_price : Option Int
  matched_type : Option String
  matched_neighborhood : Option String
deriving DecidableEq

/-- ApartmentFilter._check_offering_tag (filter.py lines 113-119). -/
def check_offering_tag (flair : String) : Bool :=
  strContains (pyLower flair) "offering" || strContains (pyLower flair) "listing"

/-- Request indicators of filter.py line 148. -/
def requestIndicators : List String :=
  ["looking for", "searching for", "need", "seeking", "wanted"]

/-- The title scan of filter.py line 148:
any(x in title.lower() for x in [...]). -/
def looks_like_request (title : String) : Bool :=
  requestIndicators.any (fun x => strContains (pyLower title) x)

/-- Tail of filter_listing after the price stage (filter.py lines 174-194):
apartment type is advisory, neighborhood decides. -/
def afterPrice (fz : String → String → Nat) (f : FilterCfg) (full_text : String)
    (price : Option Int) (priceReasons : List String) : FilterResult :=
  let typeHit := fuzzyMatchAny fz f.fuzzy_threshold full_text f.apartment_types
  let typeReasons :=
    match typeHit with
    | some t => ["Matched apartment type: \x27" ++ t ++ "\x27"]
    | none => ["No matching apartment type found"]
  match fuzzyMatchAny fz f.fuzzy_threshold full_text f.neighborhoods with
  | some hood =>
    { passed := true
      reasons := priceReasons ++ typeReasons ++ ["Matched neighborhood: \x27" ++ hood ++ "\x27"]
      extracted_price := price
      matched_type := typeHit
      matched_neighborhood := some hood }
  | none =>
    { passed := false
      reasons := priceReasons ++ typeReasons ++ ["No matching neighborhood found"]
      extracted_price := price
      matched_type := typeHit
      matched_neighborhood := none }

/-- ApartmentFilter.filter_listing (filter.py lines 121-194). -/
def filter_listing (fz : String → String → Nat) (f : FilterCfg) (post : Post) :
    FilterResult :=
  let full_text := post.title ++ " " ++ post.selftext
  if !check_offering_tag post.flair && looks_like_request post.title then
    { passed := false
      reasons := ["Not an offering (appears to be a request)"]
      extracted_price := none
      matched_type := none
      matched_neighborhood := none }
  else
    match fuzzyMatchAny fz f.fuzzy_threshold full_text f.exclude_terms with
    | some t =>
      { passed := false
        reasons := ["Excluded term found: \x27" ++ t ++ "\x27"]
        extracted_price := none
        matched_type := none
        matched_neighborhood := none }
    | none =>
      match extract_price full_text with
      | some p =>
        if p < f.price_min then
          { passed := false
            reasons := ["Price $" ++ toString p ++ " below minimum $" ++ toString f.price_min]
            extracted_price := some p
            matched_type := none
            matched_neighborhood := none }
        else if p > f.price_max then
          { passed := false
            reasons := ["Price $" ++ toString p ++ " above maximum $" ++ toString f.price_max]
            extracted_price := some p
            matched_type := none
            matched_neighborhood := none }
        else
          afterPrice fz f full_text (some p) ["Price $" ++ toString p ++ " within range"]
      | none =>
        afterPrice fz f full_text none ["No price detected"]

/-- Deciding failure reason of the pipeline, read off the branch structure of
filter_listing: the reason string of the first check that returns with
passed = false, or none when the listing passes.  This is a specification-
side companion of filter_listing used to state claim C3. -/
def deciding_reason (fz : String → String → Nat) (f : FilterCfg) (post : Post) :
    Option String :=
  let full_text := post.title ++ " " ++ post.selftext
  if !check_offering_tag post.flair && looks_like_request post.title then
    some "Not an offering (appears to be a request)"
  else
    match fuzzyMatchAny fz f.fuzzy_threshold full_text f.exclude_terms with
    | some t => some ("Excluded term found: \x27" ++ t ++ "\x27")
    | none =>
      match extract_price full_text with
      | some p =>
        if p < f.price_min then
          some ("Price $" ++ toString p ++ " below minimum $" ++ toString f.price_min)
        else if p > f.price_max then
          some ("Price $" ++ toString p ++ " above maximum $" ++ toString f.price_max)
        else
          match fuzzyMatchAny fz f.fuzzy_threshold full_text f.neighborhoods with
          | some _ => none
          | none => some "No matching neighborhood found"
      | none =>
        match fuzzyMatchAny fz f.fuzzy_threshold full_text f.neighborhoods with
        | some _ => none
        | none => some "No matching neighborhood found"

/-! ### A model of decoded JSON and the Python view of it -/

/-- JSON values as json.loads returns them (numbers modelled as Int: the
claims never hinge on fractional prices). -/
inductive Json where
  | null : Json
  | bool (b : Bool) : Json
  | num (n : Int) : Json
  | str (s : String) : Json
  | arr (elems : List Json) : Json
  | obj (kvs : List (String × Json)) : Json

/-- Key lookup in a decoded JSON object (documents written by this program
never repeat a key). -/
def lookupKv : List (String × Json) → String → Option Json
  | [], _ => none
  | (k, v) :: rest, key => if k = key then some v else lookupKv rest key

/-- Python dict.get(key) on a decoded object: an absent key gives None,
which is indistinguishable from a stored JSON null. -/
def pyGet (j : Json) (key : String) : Json :=
  match j with
  | .obj kvs => (lookupKv kvs key).getD .null
  | _ => .null

/-- Python dict.get(key, default) with a non-None default. -/
def pyGetD (j : Json) (key : String) (dflt : Json) : Json :=
  match j with
  | .obj kvs =>
    match lookupKv kvs key with
    | some v => v
    | none => dflt
  | _ => dflt

/-- Python truthiness of a decoded JSON value. -/
def truthy : Json → Bool
  | .null => false
  | .bool b => b
  | .num n => n != 0
  | .str s => s.length != 0
  | .arr l => !l.isEmpty
  | .obj l => !l.isEmpty

/-- Numeric view used by the comparisons price < min and price > max:
Python compares ints and floats, and bool is an int subtype (True is 1);
every other operand raises TypeError. -/
def pyNum : Json → Option Int
  | .num n => some n
  | .bool b => some (if b then 1 else 0)
  | _ => none

/-- Python str() of a decoded JSON value as an f-string renders it (the
container cases are schematic; no theorem below depends on them). -/
def jstr : Json → String
  | .null => "None"
  | .bool b => if b then "True" else "False"
  | .num n => toString n
  | .str s => s
  | .arr _ => "[...]"
  | .obj _ => "\x7b...\x7d"

/-! ### The LLM strategy (src/ai_parser.py, lines 20-36 and 85-187)

The Anthropic client call and json.loads are external to the repository, so
parse_listing is modelled over (1) the outcome of
client.messages.create(...).content[0].text — either an exception or a
response text — and (2) an abstract decoder standing for json.loads.  The
try/except of lines 110-185 becomes explicit: the straight-line body is in
an error-signalling form, parse_listing_core, returning the result as
mutated so far together with the exception that interrupted it, if any, and
parse_listing converts any error into the two except branches of lines
180-185.  In the embedding every path returns a result, which is the shape
of the claim that the engine never propagates an exception. -/

/-- Configuration of AIListingParser (ai_parser.py lines 20-36).  The
criteria lists only flow into the prompt; the Python-side decision uses
price_min and price_max alone. -/
structure AICfg where
  neighborhoods : List String
  apartment_types : List String
  exclude_terms : List String
  price_min : Int
  price_max : Int

/-- Result dictionary of parse_listing (ai_parser.py lines 101-108): the
price, type and neighborhood fields hold whatever JSON value the model
reported (null models Python None). -/
structure AIResult where
  passed : Bool
  reasons : List String
  extracted_price : Json
  matched_type : Json
  matched_neighborhood : Json
  ai_response : Option Json

/-- Outcome of the model call of ai_parser.py lines 111-121: either an
exception from the client (or from reading response.content[0].text), or
the raw response text. -/
inductive AICallResult where
  | failure (msg : String) : AICallResult
  | text (s : String) : AICallResult

/-- Markdown fence handling of ai_parser.py lines 125-129 applied to the
stripped response text. -/
def stripMarkdown (s : String) : String :=
  if s.startsWith "```" then
    let t := ((s.splitOn "```").getD 1 "")
    let t := if t.startsWith "json" then t.drop 4 else t
    t.trim
  else s

/-- Empty result of ai_parser.py lines 101-108. -/
def aiBase : AIResult :=
  { passed := false
    reasons := []
    extracted_price := .null
    matched_type := .null
    matched_neighborhood := .null
    ai_response := none }

/-- Tail of the straight-line body after the price stage (ai_parser.py lines
162-178). -/
def aiAfterPrice (j : Json) (r0 : AIResult) (priceReasons : List String) :
    AIResult × Option String :=
  let typeReasons :=
    if truthy (pyGet j "apartment_type") then
      ["Apartment type: " ++ jstr (pyGet j "apartment_type")]
    else ["No apartment type detected"]
  if truthy (pyGet j "neighborhood") then
    let nbReasons := ["Neighborhood: " ++ jstr (pyGet j "neighborhood")]
    if truthy (pyGet j "matches_criteria") then
      ({ r0 with
          passed := true
          reasons := priceReasons ++ typeReasons ++ nbReasons ++
            ["AI summary: " ++ jstr (pyGetD j "summary" (.str "N/A"))] }, none)
    else
      ({ r0 with
          reasons := priceReasons ++ typeReasons ++ nbReasons ++
            ["AI determined listing does not match criteria"] }, none)
  else
    ({ r0 with
        reasons := priceReasons ++ typeReasons ++ ["No matching neighborhood found"] }, none)

/-- Straight-line body of the try block after json.loads succeeded
(ai_parser.py lines 132-178).  The second component is the exception, if
one interrupts the body: calling .get on a non-dict raises AttributeError
(line 135), comparing a non-numeric price against an int raises TypeError
(line 151).  The first component is the result dictionary as already
mutated when the exception strikes, since the except handler appends to the
same dictionary. -/
def parse_listing_core (cfg : AICfg) (j : Json) : AIResult × Option String :=
  match j with
  | .obj _ =>
    let r0 : AIResult :=
      { passed := false
        reasons := []
        extracted_price := pyGet j "price"
        matched_type := pyGet j "apartment_type"
        matched_neighborhood := pyGet j "neighborhood"
        ai_response := some j }
    if !truthy (pyGet j "is_offering") then
      ({ r0 with reasons := ["Not an offering (appears to be a request)"] }, none)
    else if truthy (pyGet j "has_exclusion") then
      ({ r0 with reasons :=
          ["Excluded: " ++ jstr (pyGetD j "exclusion_reason" (.str "exclusion term found"))] },
        none)
    else
      match pyGet j "price" with
      | .null => aiAfterPrice j r0 ["No price detected"]
      | .num n =>
        if n < cfg.price_min then
          ({ r0 with reasons :=
              ["Price $" ++ jstr (.num n) ++ " below minimum $" ++ toString cfg.price_min] },
            none)
        else if n > cfg.price_max then
          ({ r0 with reasons :=
              ["Price $" ++ jstr (.num n) ++ " above maximum $" ++ toString cfg.price_max] },
            none)
        else aiAfterPrice j r0 ["Price $" ++ jstr (.num n) ++ " within range"]
      | .bool b =>
        if (if b then (1 : Int) else 0) < cfg.price_min then
          ({ r0 with reasons :=
              ["Price $" ++ jstr (.bool b) ++ " below minimum $" ++ toString cfg.price_min] },
            none)
        else if (if b then (1 : Int) else 0) > cfg.price_max then
          ({ r0 with reasons :=
              ["Price $" ++ jstr (.bool b) ++ " above maximum $" ++ toString cfg.price_max] },
            none)
        else aiAfterPrice j r0 ["Price $" ++ jstr (.bool b) ++ " within range"]
      | .str _ => (r0, some "TypeError: unsupported comparison")
      | .arr _ => (r0, some "TypeError: unsupported comparison")
      | .obj _ => (r0, some "TypeError: unsupported comparison")
  | _ =>
    ({ aiBase with ai_response := some j }, some "AttributeError: no attribute get")

/-- AIListingParser.parse_listing (ai_parser.py lines 85-187): decode is the
external json.loads, call the outcome of the client call.  The except
branches of lines 180-185 convert a decode failure into the reason
"AI parsing error: ..." and every other exception into "AI error: ...". -/
def parse_listing (decode : String → Except String Json) (cfg : AICfg)
    (call : AICallResult) : AIResult :=
  match call with
  | .failure e => { aiBase with reasons := ["AI error: " ++ e] }
  | .text s =>
    match decode (stripMarkdown s.trim) with
    | .error e => { aiBase with reasons := ["AI parsing error: " ++ e] }
    | .ok j =>
      match parse_listing_core cfg j with
      | (r, none) => r
      | (r, some e) => { r with reasons := r.reasons ++ ["AI error: " ++ e] }

/-- Condition under which the try block of parse_listing raises: the client
call fails, the response fails to decode, or the straight-line body raises. -/
def errorOutcome (decode : String → Except String Json) (cfg : AICfg)
    (call : AICallResult) : Bool :=
  match call with
  | .failure _ => true
  | .text s =>
    match decode (stripMarkdown s.trim) with
    | .error _ => true
    | .ok j => (parse_listing_core cfg j).2.isSome

/-- A decoded model response whose reported neighborhood is not one of the
configured target neighborhoods while every gate of the Python-side decision
passes: the value json.loads would yield from the corresponding response
text. -/
def aiRespC1 : Json :=
  .obj
    [("is_offering", .bool true),
     ("has_exclusion", .bool false),
     ("price", .null),
     ("neighborhood", .str "atlantis"),
     ("apartment_type", .null),
     ("matches_criteria", .bool true),
     ("summary", .str "ok")]

/-! ### The deduplication store (src/storage.py)

SeenPostsStorage keeps a Python set of post identifiers.  A Python set of
JSON-decoded values can only hold hashable values, which in the Json
universe of this file are exactly the atoms (null, bool, number, string);
the set is modelled as a duplicate-free list of atoms whose order records
insertion order for reference.  Python does not specify the iteration order
of a set, so list(self.seen_posts) (storage.py line 49) is modelled by an
explicit enumeration argument that the theorems constrain to be a
permutation of the set.  The storage file is modelled by what json.load
would yield from it: absent, unreadable (IOError), undecodable
(json.JSONDecodeError), or a decoded JSON document. -/

/-- Hashable JSON-decoded values: what a Python set built from a decoded
document can hold. -/
inductive PyAtom where
  | null : PyAtom
  | bool (b : Bool) : PyAtom
  | num (n : Int) : PyAtom
  | str (s : String) : PyAtom
deriving DecidableEq

/-- Embedding of an atom back into JSON, as json.dump serialises it. -/
def atomJson : PyAtom → Json
  | .null => .null
  | .bool b => .bool b
  | .num n => .num n
  | .str s => .str s

/-- Hashability check of one decoded value: lists and dicts raise TypeError
inside set(...). -/
def toAtom : Json → Option PyAtom
  | .null => some .null
  | .bool b => some (.bool b)
  | .num n => some (.num n)
  | .str s => some (.str s)
  | .arr _ => none
  | .obj _ => none

/-- Hashability check of a whole list, in order: set(...) raises on the
first unhashable element. -/
def atomsOf : List Json → Option (List PyAtom)
  | [] => some []
  | j :: rest =>
    match toAtom j, atomsOf rest with
    | some a, some as2 => some (a :: as2)
    | _, _ => none

/-- Python set.add on the list model: insert at the end unless present. -/
def pyAdd (s : List PyAtom) (x : PyAtom) : List PyAtom :=
  if x ∈ s then s else s ++ [x]

/-- Python set(iterable) on the list model: membership and size of the
result are those of a set; first occurrences are kept. -/
def pySetOf (l : List PyAtom) : List PyAtom :=
  l.foldl pyAdd []

/-- Errors _load does not catch. -/
inductive PyErr where
  | attributeError : PyErr
  | typeError : PyErr
deriving DecidableEq

/-- The storage file as json.load sees it. -/
inductive FileState where
  | absent : FileState
  | ioError : FileState
  | badJson : FileState
  | json (j : Json) : FileState

/-- Python iter() over a decoded JSON value, as set(...) consumes it: a
list yields its elements, a string its characters, a dict its keys, and
everything else raises TypeError. -/
def pyIter : Json → Except PyErr (List Json)
  | .arr es => .ok es
  | .str s => .ok (s.data.map (fun c => Json.str ⟨[c]⟩))
  | .obj kvs => .ok (kvs.map (fun kv => Json.str kv.1))
  | _ => .error .typeError

/-- SeenPostsStorage._load (storage.py lines 31-43): an absent file, an
IOError and a json.JSONDecodeError all give the empty set (the latter two
through the except branch of lines 39-41); a decoded document reaches
data.get("seen_ids", []) (line 37), which raises an uncaught AttributeError
when the document is not an object, and set(...) raises an uncaught
TypeError when the seen_ids value is not iterable or holds an unhashable
element. -/
def pyLoad : FileState → Except PyErr (List PyAtom)
  | .absent => .ok []
  | .ioError => .ok []
  | .badJson => .ok []
  | .json j =>
    match j with
    | .obj kvs =>
      let v := (lookupKv kvs "seen_ids").getD (.arr [])
      match pyIter v with
      | .error e => .error e
      | .ok elems =>
        match atomsOf elems with
        | some atoms => .ok (pySetOf atoms)
        | none => .error .typeError
    | _ => .error .attributeError

/-- Trim of SeenPostsStorage._save (storage.py lines 49-52): keep only the
last 10000 entries of the enumerated list. -/
def trimSave (enum : List PyAtom) : List PyAtom :=
  if enum.length > 10000 then enum.drop (enum.length - 10000) else enum

/-- SeenPostsStorage._save (storage.py lines 45-64) on a successful write:
st is the in-memory set, enum the runtime enumeration list(self.seen_posts),
ts the datetime.now().isoformat() timestamp.  Returns the new in-memory set
(replaced only when the trim fires, line 52) and the written file. -/
def pySave (ts : String) (st enum : List PyAtom) : List PyAtom × FileState :=
  let t := trimSave enum
  let seen2 := if enum.length > 10000 then t else st
  (seen2,
    .json (.obj
      [("seen_ids", .arr (t.map atomJson)),
       ("last_updated", .str ts),
       ("count", .num t.length)]))

/-- SeenPostsStorage.mark_many_seen (storage.py lines 74-78): add every
identifier to the set, then save. -/
def mark_many_seen (ts : String) (post_ids : List String)
    (enum : List PyAtom) (st : List PyAtom) : List PyAtom × FileState :=
  pySave ts (post_ids.foldl (fun s i => pyAdd s (.str i)) st) enum

/-- SeenPostsStorage.is_seen (storage.py lines 66-68). -/
def is_seen (st : List PyAtom) (post_id : String) : Bool :=
  decide (PyAtom.str post_id ∈ st)

/-- SeenPostsStorage.get_count (storage.py lines 94-96): the size of the
set, which on the duplicate-free list model is the length. -/
def get_count (st : List PyAtom) : Nat :=
  st.length

/-- Distinct post identifiers used to exercise the 10,000-entry trim: the
identifier of index n is a string of n letters. -/
def aId (n : Nat) : String :=
  ⟨List.replicate n 'a'⟩

/-- The same identifiers as set atoms. -/
def c2Atom (n : Nat) : PyAtom :=
  .str (aId n)

/-- The insertion-ordered content of the store after marking the 10001
identifiers aId 0, ..., aId 10000 as seen, earliest first. -/
def c2Inserted : List PyAtom :=
  (List.range 10001).map c2Atom

/-! ### Helper lemmas -/

/-- Membership is preserved by the longest-first sort. -/
lemma mem_sortByLenDesc {t : String} {l : List String} :
    t ∈ sortByLenDesc l ↔ t ∈ l :=
  (List.perm_insertionSort lenGe l).mem_iff

/-- The longest-first sort is sorted by the longest-first relation. -/
lemma sorted_sortByLenDesc (l : List String) :
    List.Pairwise lenGe (sortByLenDesc l) :=
  List.sorted_insertionSort lenGe l

/-- On a longest-first sorted list, find? returns an element of maximal
length among those satisfying the predicate. -/
lemma find?_sorted_max {p : String → Bool} :
    ∀ {l : List String}, List.Pairwise lenGe l → ∀ {x : String},
      l.find? p = some x → ∀ y ∈ l, p y = true → y.length ≤ x.length := by
  intro l
  induction l with
  | nil => intro _ x h; simp [List.find?] at h
  | cons a l ih =>
    intro hp x hfind y hy hpy
    rcases List.pairwise_cons.mp hp with ⟨ha, hl⟩
    rw [List.find?_cons] at hfind
    cases hpa : p a with
    | true =>
      rw [hpa] at hfind
      simp only [Option.some.injEq] at hfind
      subst hfind
      rcases List.mem_cons.mp hy with rfl | hyl
      · exact Nat.le_refl _
      · exact ha y hyl
    | false =>
      rw [hpa] at hfind
      rcases List.mem_cons.mp hy with rfl | hyl
      · rw [hpy] at hpa; exact absurd hpa (by simp)
      · exact ih hl hfind y hyl hpy

/-- A satisfying member makes find? succeed. -/
lemma find?_eq_some_of_exists {p : α → Bool} :
    ∀ {l : List α}, (∃ x ∈ l, p x = true) → ∃ y, l.find? p = some y := by
  intro l h
  rcases (List.find?_isSome).mpr h with hs
  exact Option.isSome_iff_exists.mp hs

/-- A term returned by _fuzzy_match_any is one of the configured terms
(either tier returns an element of the sorted list). -/
lemma fuzzyMatchAny_mem {fz : String → String → Nat} {th : Nat}
    {text : String} {terms : List String} {t : String}
    (h : fuzzyMatchAny fz th text terms = some t) : t ∈ terms := by
  unfold fuzzyMatchAny fuzzyMatchAnyLower at h
  dsimp only at h
  rcases hfind : (sortByLenDesc terms).find?
      (fun u => wbSearch u.data none (pyLower text).data) with _ | u
  · rw [hfind] at h
    dsimp only at h
    exact mem_sortByLenDesc.mp (List.mem_of_find?_eq_some h)
  · rw [hfind] at h
    dsimp only [Option.some.injEq] at h
    simp only [Option.some.injEq] at h
    subst h
    exact mem_sortByLenDesc.mp (List.mem_of_find?_eq_some hfind)

/-- The inner capture loop returns the first parsable capture in the band. -/
lemma loopMatches_eq (ms : List (List Char)) :
    loopMatches ms = (ms.filterMap toPrice).find? inBand := by
  induction ms with
  | nil => rfl
  | cons m ms ih =>
    rw [loopMatches]
    rcases hm : toPrice m with _ | p
    · rw [List.filterMap_cons_none hm]
      exact ih
    · rw [List.filterMap_cons_some hm, List.find?_cons]
      dsimp only
      by_cases hband : 500 ≤ p ∧ p ≤ 15000
      · rw [if_pos hband]
        have hb : inBand p = true := by
          simp only [inBand, decide_eq_true_eq]; exact hband
        rw [hb]
      · rw [if_neg hband]
        have hb : inBand p = false := by
          simp only [inBand, decide_eq_false_iff_not]; exact hband
        rw [hb, ih]

/-- The pattern loop returns the first parsable capture in the band, in
pattern-major order. -/
lemma loopRegexes_eq (L : List (List (List Char))) :
    loopRegexes L = (L.flatMap (fun caps => caps.filterMap toPrice)).find? inBand := by
  induction L with
  | nil => rfl
  | cons caps rest ih =>
    rw [loopRegexes, loopMatches_eq, List.flatMap_cons, List.find?_append, ih]
    rcases (caps.filterMap toPrice).find? inBand with _ | p
    · simp [Option.or]
    · simp [Option.or]

/-- Folding set.add over fresh elements appends them in order. -/
lemma foldl_pyAdd_of_nodup :
    ∀ (xs acc : List PyAtom), (acc ++ xs).Nodup → xs.foldl pyAdd acc = acc ++ xs := by
  intro xs
  induction xs with
  | nil => intro acc _; simp
  | cons x xs ih =>
    intro acc hnd
    have hx : x ∉ acc := by
      rcases List.nodup_append.mp hnd with ⟨_, _, hdisj⟩
      intro hmem
      exact hdisj hmem (List.mem_cons_self x xs)
    have hstep : pyAdd acc x = acc ++ [x] := by
      unfold pyAdd
      rw [if_neg hx]
    rw [List.foldl_cons, hstep, ih (acc ++ [x]) (by rwa [← List.append_cons])]
    rw [← List.append_cons]

/-- Membership in the set built by folding set.add. -/
lemma mem_foldl_pyAdd :
    ∀ (xs acc : List PyAtom) (z : PyAtom),
      z ∈ xs.foldl pyAdd acc ↔ z ∈ acc ∨ z ∈ xs := by
  intro xs
  induction xs with
  | nil => intro acc z; simp
  | cons x xs ih =>
    intro acc z
    rw [List.foldl_cons, ih]
    unfold pyAdd
    by_cases hx : x ∈ acc
    · rw [if_pos hx]
      constructor
      · rintro (h | h)
        · exact Or.inl h
        · exact Or.inr (List.mem_cons_of_mem x h)
      · rintro (h | h)
        · exact Or.inl h
        · rcases List.mem_cons.mp h with rfl | h2
          · exact Or.inl hx
          · exact Or.inr h2
    · rw [if_neg hx]
      simp only [List.mem_append, List.mem_singleton, List.mem_cons]
      tauto

/-- Python set(l) keeps exactly the members of l. -/
lemma mem_pySetOf {l : List PyAtom} {z : PyAtom} :
    z ∈ pySetOf l ↔ z ∈ l := by
  unfold pySetOf
  rw [mem_foldl_pyAdd]
  simp

/-- Python set(l) of a duplicate-free list is l itself on the list model. -/
lemma pySetOf_of_nodup {l : List PyAtom} (h : l.Nodup) : pySetOf l = l := by
  unfold pySetOf
  rw [foldl_pyAdd_of_nodup l [] (by simpa using h)]
  simp

/-- Serialising atoms and checking hashability round-trips. -/
lemma atomsOf_map_atomJson : ∀ l : List PyAtom, atomsOf (l.map atomJson) = some l := by
  intro l
  induction l with
  | nil => rfl
  | cons a l ih =>
    rw [List.map_cons]
    show atomsOf (atomJson a :: l.map atomJson) = some (a :: l)
    have ha : toAtom (atomJson a) = some a := by cases a <;> rfl
    unfold atomsOf
    rw [ha, ih]

/-- Anatomy of the post-price stage of the deterministic pipeline: the price
argument is stored verbatim, a pass pins a matched neighborhood, and the
reasons list is never empty. -/
lemma afterPrice_spec (fz : String → String → Nat) (f : FilterCfg)
    (full : String) (price : Option Int) (pr : List String) :
    (afterPrice fz f full price pr).extracted_price = price ∧
    ((afterPrice fz f full price pr).passed = true →
      ∃ hood, fuzzyMatchAny fz f.fuzzy_threshold full f.neighborhoods = some hood ∧
        (afterPrice fz f full price pr).matched_neighborhood = some hood) ∧
    (afterPrice fz f full price pr).reasons ≠ [] := by
  unfold afterPrice
  rcases hnb : fuzzyMatchAny fz f.fuzzy_threshold full f.neighborhoods with _ | hood <;>
    rcases ht : fuzzyMatchAny fz f.fuzzy_threshold full f.apartment_types with _ | t <;>
    simp [hnb, ht]

/-- Anatomy of the post-price stage of the LLM pipeline: no exception, the
extraction fields of the incoming result are preserved, a pass needs a
truthy neighborhood, and the reasons list is never empty. -/
lemma aiAfterPrice_spec (j : Json) (r0 : AIResult) (pr : List String) :
    (aiAfterPrice j r0 pr).2 = none ∧
    (aiAfterPrice j r0 pr).1.extracted_price = r0.extracted_price ∧
    (aiAfterPrice j r0 pr).1.matched_type = r0.matched_type ∧
    (aiAfterPrice j r0 pr).1.matched_neighborhood = r0.matched_neighborhood ∧
    (aiAfterPrice j r0 pr).1.ai_response = r0.ai_response ∧
    ((aiAfterPrice j r0 pr).1.passed = true →
      r0.passed = true ∨ truthy (pyGet j "neighborhood") = true) ∧
    (aiAfterPrice j r0 pr).1.reasons ≠ [] := by
  unfold aiAfterPrice
  split_ifs <;> simp_all

/-- Anatomy of the straight-line body of parse_listing: a pass implies no
exception, a stored response object without exclusion flag, a null or
in-bounds price, and a truthy neighborhood; an exception means the body had
not set passed; and a normally returning failed body left a reason. -/
lemma parse_listing_core_spec (cfg : AICfg) (j : Json) :
    ((parse_listing_core cfg j).1.passed = true →
      (∃ jj, (parse_listing_core cfg j).1.ai_response = some jj ∧
        truthy (pyGet jj "has_exclusion") = false) ∧
      ((parse_listing_core cfg j).1.extracted_price = Json.null ∨
        ∃ n, pyNum (parse_listing_core cfg j).1.extracted_price = some n ∧
          cfg.price_min ≤ n ∧ n ≤ cfg.price_max) ∧
      truthy (parse_listing_core cfg j).1.matched_neighborhood = true) ∧
    ((parse_listing_core cfg j).2.isSome = true →
      (parse_listing_core cfg j).1.passed = false) ∧
    ((parse_listing_core cfg j).1.passed = false →
      (parse_listing_core cfg j).2 = none →
      (parse_listing_core cfg j).1.reasons ≠ []) := by
  cases j with
  | obj kvs =>
    unfold parse_listing_core
    dsimp only
    split_ifs with h1 h2
    · simp
    · simp
    · rcases hp : pyGet (Json.obj kvs) "price" with _ | b | n | s | es | ks <;> dsimp only
      · rcases aiAfterPrice_spec (Json.obj kvs)
          { passed := false, reasons := [],
            extracted_price := Json.null,
            matched_type := pyGet (Json.obj kvs) "apartment_type",
            matched_neighborhood := pyGet (Json.obj kvs) "neighborhood",
            ai_response := some (Json.obj kvs) } ["No price detected"]
          with ⟨hsnd, hep, hmt, hmn, hai, hpass, hre⟩
        refine ⟨fun hp2 => ?_, fun hs => ?_, fun _ _ => hre⟩
        · rcases hpass hp2 with h | h
          · cases h
          · refine ⟨⟨Json.obj kvs, by rw [hai], by simpa using h2⟩, ?_, ?_⟩
            · left; rw [hep]
            · rw [hmn]; exact h
        · rw [hsnd] at hs; cases hs
      · -- price is a bool
        by_cases hb1 : (if b = true then (1 : Int) else 0) < cfg.price_min
        · rw [if_pos hb1]; simp
        · rw [if_neg hb1]
          by_cases hb2 : (if b = true then (1 : Int) else 0) > cfg.price_max
          · rw [if_pos hb2]; simp
          · rw [if_neg hb2]
            rcases aiAfterPrice_spec (Json.obj kvs)
              { passed := false, reasons := [],
                extracted_price := Json.bool b,
                matched_type := pyGet (Json.obj kvs) "apartment_type",
                matched_neighborhood := pyGet (Json.obj kvs) "neighborhood",
                ai_response := some (Json.obj kvs) }
              ["Price $" ++ jstr (.bool b) ++ " within range"]
              with ⟨hsnd, hep, hmt, hmn, hai, hpass, hre⟩
            refine ⟨fun hp2 => ?_, fun hs => ?_, fun _ _ => hre⟩
            · rcases hpass hp2 with h | h
              · cases h
              · refine ⟨⟨Json.obj kvs, by rw [hai], by simpa using h2⟩, ?_, ?_⟩
                · right
                  refine ⟨if b = true then 1 else 0, ?_, ?_, ?_⟩
                  · rw [hep]; cases b <;> rfl
                  · exact le_of_not_lt hb1
                  · exact le_of_not_lt hb2
                · rw [hmn]; exact h
            · rw [hsnd] at hs; cases hs
      · -- price is a number
        split_ifs with hb1 hb2
        · simp
        · simp
        · rcases aiAfterPrice_spec (Json.obj kvs)
            { passed := false, reasons := [],
              extracted_price := Json.num n,
              matched_type := pyGet (Json.obj kvs) "apartment_type",
              matched_neighborhood := pyGet (Json.obj kvs) "neighborhood",
              ai_response := some (Json.obj kvs) }
            ["Price $" ++ jstr (.num n) ++ " within range"]
            with ⟨hsnd, hep, hmt, hmn, hai, hpass, hre⟩
          refine ⟨fun hp2 => ?_, fun hs => ?_, fun _ _ => hre⟩
          · rcases hpass hp2 with h | h
            · cases h
            · refine ⟨⟨Json.obj kvs, by rw [hai], by simpa using h2⟩, ?_, ?_⟩
              · right
                refine ⟨n, ?_, le_of_not_lt hb1, le_of_not_lt hb2⟩
                rw [hep]; rfl
              · rw [hmn]; exact h
          · rw [hsnd] at hs; cases hs
      · simp
      · simp
      · simp
  | null => simp [parse_listing_core, aiBase]
  | bool b => simp [parse_listing_core, aiBase]
  | num n => simp [parse_listing_core, aiBase]
  | str s => simp [parse_listing_core, aiBase]
  | arr es => simp [parse_listing_core, aiBase]

/-- Anatomy of the deterministic pipeline: a pass implies the exclusion
check found nothing, any extracted price is within bounds, and a matched
configured neighborhood; a failure always leaves a reason. -/
lemma filter_listing_spec (fz : String → String → Nat) (f : FilterCfg) (post : Post) :
    ((filter_listing fz f post).passed = true →
      fuzzyMatchAny fz f.fuzzy_threshold (post.title ++ " " ++ post.selftext)
        f.exclude_terms = none ∧
      (∀ p, (filter_listing fz f post).extracted_price = some p →
        f.price_min ≤ p ∧ p ≤ f.price_max) ∧
      ∃ hood, (filter_listing fz f post).matched_neighborhood = some hood ∧
        hood ∈ f.neighborhoods) ∧
    ((filter_listing fz f post).passed = false →
      (filter_listing fz f post).reasons ≠ []) := by
  unfold filter_listing
  dsimp only
  by_cases hoff : (!check_offering_tag post.flair && looks_like_request post.title) = true
  · rw [if_pos hoff]
    constructor
    · intro h
      simp at h
    · intro _
      simp
  · rw [if_neg hoff]
    rcases hexc : fuzzyMatchAny fz f.fuzzy_threshold
        (post.title ++ " " ++ post.selftext) f.exclude_terms with _ | t
    · dsimp only
      rcases hp : extract_price (post.title ++ " " ++ post.selftext) with _ | p
      · dsimp only
        rcases afterPrice_spec fz f (post.title ++ " " ++ post.selftext) none
            ["No price detected"] with ⟨hep, hpass, hre⟩
        refine ⟨fun h2 => ⟨rfl, ?_, ?_⟩, fun _ => hre⟩
        · intro q hq
          rw [hep] at hq
          cases hq
        · rcases hpass h2 with ⟨hood, hnb, hmn⟩
          exact ⟨hood, hmn, fuzzyMatchAny_mem hnb⟩
      · dsimp only
        by_cases h1 : p < f.price_min
        · rw [if_pos h1]
          constructor
          · intro h
            simp at h
          · intro _
            simp
        · rw [if_neg h1]
          by_cases h2 : p > f.price_max
          · rw [if_pos h2]
            constructor
            · intro h
              simp at h
            · intro _
              simp
          · rw [if_neg h2]
            rcases afterPrice_spec fz f (post.title ++ " " ++ post.selftext) (some p)
                ["Price $" ++ toString p ++ " within range"] with ⟨hep, hpass, hre⟩
            refine ⟨fun hps => ⟨rfl, ?_, ?_⟩, fun _ => hre⟩
            · intro q hq
              rw [hep] at hq
              cases hq
              exact ⟨le_of_not_lt h1, le_of_not_lt h2⟩
            · rcases hpass hps with ⟨hood, hnb, hmn⟩
              exact ⟨hood, hmn, fuzzyMatchAny_mem hnb⟩
    · dsimp only
      constructor
      · intro h
        simp at h
      · intro _
        simp

/-- Anatomy of the LLM pipeline: a pass implies a stored response object
without exclusion flag, a null or in-bounds price and a truthy reported
neighborhood; a failure always leaves a reason. -/
lemma parse_listing_spec (decode : String → Except String Json) (cfg : AICfg)
    (call : AICallResult) :
    ((parse_listing decode cfg call).passed = true →
      (∃ j, (parse_listing decode cfg call).ai_response = some j ∧
        truthy (pyGet j "has_exclusion") = false) ∧
      ((parse_listing decode cfg call).extracted_price = Json.null ∨
        ∃ n, pyNum (parse_listing decode cfg call).extracted_price = some n ∧
          cfg.price_min ≤ n ∧ n ≤ cfg.price_max) ∧
      truthy (parse_listing decode cfg call).matched_neighborhood = true) ∧
    ((parse_listing decode cfg call).passed = false →
      (parse_listing decode cfg call).reasons ≠ []) := by
  unfold parse_listing
  rcases call with e | s
  · dsimp only
    constructor
    · intro h
      simp [aiBase] at h
    · intro _
      simp
  · dsimp only
    rcases hdec : decode (stripMarkdown s.trim) with e | j <;> dsimp only
    · constructor
      · intro h
        simp [aiBase] at h
      · intro _
        simp
    · obtain ⟨hpass, hsome, hnone⟩ := parse_listing_core_spec cfg j
      rcases hcore : parse_listing_core cfg j with ⟨r, e2⟩
      rw [hcore] at hpass hsome hnone
      rcases e2 with _ | e2 <;> (try dsimp only)
      · exact ⟨hpass, fun hf => hnone hf rfl⟩
      · have hrp : r.passed = false := hsome rfl
        constructor
        · intro h
          rw [hrp] at h
          cases h
        · intro _
          simp

/-! ### Claim theorems -/

/-- C1 (amended): for every listing and criteria, the result of either
strategy satisfies the invariant: a deterministic pass implies that the
exclusion check matched nothing, the extracted price (when not none) lies
within [price_min, price_max] and the matched location is one of the
configured target locations; an LLM pass implies that the response carries
no exclusion flag, the reported price is null or within bounds, and the
reported neighborhood is truthy — but the LLM strategy does not validate
the reported neighborhood against the configured target list (see the
counterexample); and for both strategies a failure has a non-empty reasons
list. -/
theorem c1_result_invariant (fz : String → String → Nat) (f : FilterCfg) (post : Post)
    (decode : String → Except String Json) (cfg : AICfg) (call : AICallResult) :
    (((filter_listing fz f post).passed = true →
      fuzzyMatchAny fz f.fuzzy_threshold (post.title ++ " " ++ post.selftext)
        f.exclude_terms = none ∧
      (∀ p, (filter_listing fz f post).extracted_price = some p →
        f.price_min ≤ p ∧ p ≤ f.price_max) ∧
      ∃ hood, (filter_listing fz f post).matched_neighborhood = some hood ∧
        hood ∈ f.neighborhoods) ∧
    ((filter_listing fz f post).passed = false →
      (filter_listing fz f post).reasons ≠ [])) ∧
    (((parse_listing decode cfg call).passed = true →
      (∃ j, (parse_listing decode cfg call).ai_response = some j ∧
        truthy (pyGet j "has_exclusion") = false) ∧
      ((parse_listing decode cfg call).extracted_price = Json.null ∨
        ∃ n, pyNum (parse_listing decode cfg call).extracted_price = some n ∧
          cfg.price_min ≤ n ∧ n ≤ cfg.price_max) ∧
      truthy (parse_listing decode cfg call).matched_neighborhood = true) ∧
    ((parse_listing decode cfg call).passed = false →
      (parse_listing decode cfg call).reasons ≠ [])) :=
  ⟨filter_listing_spec fz f post, parse_listing_spec decode cfg call⟩

/-- C1 counterexample: the LLM strategy accepts a listing whose reported
neighborhood, atlantis, is not among the configured target neighborhoods
(here, williamsburg only), so a passed result does not guarantee that the
matched location is a configured target location. -/
theorem c1_counterexample :
    (parse_listing (fun _ => Except.ok aiRespC1)
      ⟨["williamsburg"], [], [], 0, 99999⟩ (.text "resp")).passed = true ∧
    (parse_listing (fun _ => Except.ok aiRespC1)
      ⟨["williamsburg"], [], [], 0, 99999⟩ (.text "resp")).matched_neighborhood =
        Json.str "atlantis" ∧
    "atlantis" ∉ (⟨["williamsburg"], [], [], 0, 99999⟩ : AICfg).neighborhoods :=
  ⟨rfl, rfl, by decide⟩

/-- C5: extract_price applies the five price patterns in their fixed order
and returns the first capture, pattern-major and in reading order within a
pattern, whose comma-stripped integer value lies in the band [500, 15000];
captures outside the band or unparsable are skipped, and with no plausible
capture the result is none. -/
theorem c5_extract_price_cascade (text : String) :
    extract_price text =
      ((price_regex_findalls text).flatMap
        (fun caps => caps.filterMap toPrice)).find? inBand :=
  loopRegexes_eq (price_regex_findalls text)

/-- C6: _fuzzy_match_any is case-insensitive in the text (texts equal after
lowering match identically), and when some configured terms occur in the
lowered text with word boundaries, it returns a qualifying term of maximal
length among the occurring ones (terms are tried longest first, exact tier
before fuzzy tier). -/
theorem c6_match_any_longest (fz : String → String → Nat) (th : Nat)
    (text text2 : String) (terms : List String)
    (hne : terms ≠ [])
    (hci : pyLower text2 = pyLower text)
    (hex : ∃ t ∈ terms, wbOccurs t text = true) :
    fuzzyMatchAny fz th text2 terms = fuzzyMatchAny fz th text terms ∧
    ∃ t, fuzzyMatchAny fz th text terms = some t ∧ t ∈ terms ∧
      wbOccurs t text = true ∧
      ∀ u ∈ terms, wbOccurs u text = true → u.length ≤ t.length := by
  constructor
  · unfold fuzzyMatchAny
    rw [hci]
  · obtain ⟨t0, ht0mem, ht0occ⟩ := hex
    have hex2 : ∃ u ∈ sortByLenDesc terms,
        (fun u => wbSearch u.data none (pyLower text).data) u = true :=
      ⟨t0, mem_sortByLenDesc.mpr ht0mem, ht0occ⟩
    obtain ⟨y, hy⟩ := find?_eq_some_of_exists hex2
    refine ⟨y, ?_, mem_sortByLenDesc.mp (List.mem_of_find?_eq_some hy), ?_, ?_⟩
    · unfold fuzzyMatchAny fuzzyMatchAnyLower
      dsimp only
      rw [hy]
    · have hps := List.find?_some hy
      exact hps
    · intro u hu hpu
      exact find?_sorted_max (sorted_sortByLenDesc terms) hy u
        (mem_sortByLenDesc.mpr hu) hpu

/-- C6 witness: with terms village and east village both occurring with word
boundaries, the longer term is returned, and an upper-cased text matches the
same way. -/
theorem c6_witness :
    fuzzyMatchAny (fun _ _ => 0) 80 "LOVE THE EAST VILLAGE VIBES"
        ["village", "east village"] =
      fuzzyMatchAny (fun _ _ => 0) 80 "Love the East Village vibes"
        ["village", "east village"] ∧
    ∃ t, fuzzyMatchAny (fun _ _ => 0) 80 "Love the East Village vibes"
        ["village", "east village"] = some t ∧
      t ∈ ["village", "east village"] ∧
      wbOccurs t "Love the East Village vibes" = true ∧
      ∀ u ∈ ["village", "east village"],
        wbOccurs u "Love the East Village vibes" = true → u.length ≤ t.length :=
  c6_match_any_longest (fun _ _ => 0) 80 "Love the East Village vibes"
    "LOVE THE EAST VILLAGE VIBES" ["village", "east village"]
    (by decide) (by decide) (by decide)

/-- C9: whenever the model call fails, the response fails to decode, or the
body of the try block raises, parse_listing still returns a result with
passed = false, a non-empty reasons list and a distinguishable error reason;
in the embedding every branch of parse_listing returns a result, so no
exception reaches the caller. -/
theorem c9_ai_error_containment (decode : String → Except String Json) (cfg : AICfg)
    (call : AICallResult) (h : errorOutcome decode cfg call = true) :
    (parse_listing decode cfg call).passed = false ∧
    (parse_listing decode cfg call).reasons ≠ [] ∧
    ∃ e, ("AI error: " ++ e) ∈ (parse_listing decode cfg call).reasons ∨
      ("AI parsing error: " ++ e) ∈ (parse_listing decode cfg call).reasons := by
  unfold errorOutcome at h
  unfold parse_listing
  rcases call with e | s
  · dsimp only
    exact ⟨rfl, by simp, ⟨e, Or.inl (by simp)⟩⟩
  · dsimp only
    dsimp only at h
    rcases hdec : decode (stripMarkdown s.trim) with e | j <;> dsimp only
    · exact ⟨rfl, by simp, ⟨e, Or.inr (by simp)⟩⟩
    · rw [hdec] at h
      dsimp only at h
      obtain ⟨hpassa, hsome, hnonea⟩ := parse_listing_core_spec cfg j
      have hfalse := hsome h
      rcases hcore : parse_listing_core cfg j with ⟨r, e2⟩
      rw [hcore] at h hfalse
      rcases e2 with _ | e2
      · simp at h
      · dsimp only at hfalse ⊢
        refine ⟨hfalse, by simp, ⟨e2, Or.inl ?_⟩⟩
        simp

/-- C9 witness: a response that fails to decode is converted into a failed
result carrying the parsing-error reason. -/
theorem c9_witness :
    errorOutcome (fun _ => Except.error "bad json") ⟨[], [], [], 0, 100⟩
        (.text "resp") = true ∧
    ((parse_listing (fun _ => Except.error "bad json") ⟨[], [], [], 0, 100⟩
        (.text "resp")).passed = false ∧
      (parse_listing (fun _ => Except.error "bad json") ⟨[], [], [], 0, 100⟩
        (.text "resp")).reasons ≠ [] ∧
      ∃ e, ("AI error: " ++ e) ∈ (parse_listing (fun _ => Except.error "bad json")
          ⟨[], [], [], 0, 100⟩ (.text "resp")).reasons ∨
        ("AI parsing error: " ++ e) ∈ (parse_listing (fun _ => Except.error "bad json")
          ⟨[], [], [], 0, 100⟩ (.text "resp")).reasons) :=
  ⟨rfl, c9_ai_error_containment (fun _ => Except.error "bad json")
    ⟨[], [], [], 0, 100⟩ (.text "resp") rfl⟩

/-- C10: a listing rejected by the offering pre-check or by the exclusion
check short-circuits with extracted_price, matched_type and
matched_neighborhood all none: extraction and positive matching are never
run after an early return. -/
theorem c10_short_circuit_fields (fz : String → String → Nat) (f : FilterCfg) (post : Post)
    (h : (!check_offering_tag post.flair && looks_like_request post.title) = true ∨
      (fuzzyMatchAny fz f.fuzzy_threshold (post.title ++ " " ++ post.selftext)
        f.exclude_terms).isSome = true) :
    (filter_listing fz f post).passed = false ∧
    (filter_listing fz f post).extracted_price = none ∧
    (filter_listing fz f post).matched_type = none ∧
    (filter_listing fz f post).matched_neighborhood = none := by
  unfold filter_listing
  dsimp only
  by_cases hoff : (!check_offering_tag post.flair && looks_like_request post.title) = true
  · rw [if_pos hoff]
    exact ⟨rfl, rfl, rfl, rfl⟩
  · rw [if_neg hoff]
    rcases h with h | h
    · exact absurd h hoff
    · rcases hexc : fuzzyMatchAny fz f.fuzzy_threshold
          (post.title ++ " " ++ post.selftext) f.exclude_terms with _ | t
      · rw [hexc] at h
        simp at h
      · dsimp only
        exact ⟨rfl, rfl, rfl, rfl⟩

/-- C10 witness: a request-like post with no offering flair is rejected with
all extraction fields none. -/
theorem c10_witness :
    ((!check_offering_tag (Post.mk "Looking for a place" "" "").flair &&
        looks_like_request (Post.mk "Looking for a place" "" "").title) = true ∨
      (fuzzyMatchAny (fun _ _ => 0) 80
        ((Post.mk "Looking for a place" "" "").title ++ " " ++
          (Post.mk "Looking for a place" "" "").selftext)
        (FilterCfg.mk 1500 2800 [] [] ["sublet"] 80).exclude_terms).isSome = true) ∧
    ((filter_listing (fun _ _ => 0) (FilterCfg.mk 1500 2800 [] [] ["sublet"] 80)
        (Post.mk "Looking for a place" "" "")).passed = false ∧
      (filter_listing (fun _ _ => 0) (FilterCfg.mk 1500 2800 [] [] ["sublet"] 80)
        (Post.mk "Looking for a place" "" "")).extracted_price = none ∧
      (filter_listing (fun _ _ => 0) (FilterCfg.mk 1500 2800 [] [] ["sublet"] 80)
        (Post.mk "Looking for a place" "" "")).matched_type = none ∧
      (filter_listing (fun _ _ => 0) (FilterCfg.mk 1500 2800 [] [] ["sublet"] 80)
        (Post.mk "Looking for a place" "" "")).matched_neighborhood = none) :=
  ⟨Or.inl (by decide),
    c10_short_circuit_fields (fun _ _ => 0) (FilterCfg.mk 1500 2800 [] [] ["sublet"] 80)
      (Post.mk "Looking for a place" "" "") (Or.inl (by decide))⟩

/-- C3 (amended): when the deterministic classify fails, the reason of the
check that caused the failure is the last element of reasons; it is also
reasons[0] exactly for the not-an-offering, exclusion and
price-out-of-bounds modes, where reasons is the singleton of the deciding
reason — for a no-location-match failure, informational price and type
reasons precede it (see the counterexample). -/
theorem c3_deciding_reason_last (fz : String → String → Nat) (f : FilterCfg) (post : Post) :
    ((filter_listing fz f post).passed = false →
      (filter_listing fz f post).reasons.getLast? = deciding_reason fz f post) ∧
    (∀ s, deciding_reason fz f post = some s →
      s ≠ "No matching neighborhood found" →
      (filter_listing fz f post).reasons = [s]) := by
  unfold filter_listing deciding_reason afterPrice
  dsimp only
  by_cases hoff : (!check_offering_tag post.flair && looks_like_request post.title) = true
  · rw [if_pos hoff, if_pos hoff]
    refine ⟨fun _ => rfl, fun s hs _ => ?_⟩
    cases hs
    rfl
  · rw [if_neg hoff, if_neg hoff]
    rcases hexc : fuzzyMatchAny fz f.fuzzy_threshold
        (post.title ++ " " ++ post.selftext) f.exclude_terms with _ | t <;> dsimp only
    · rcases hp : extract_price (post.title ++ " " ++ post.selftext) with _ | p <;> dsimp only
      · rcases hnb : fuzzyMatchAny fz f.fuzzy_threshold
            (post.title ++ " " ++ post.selftext) f.neighborhoods with _ | hood <;> dsimp only
        · refine ⟨fun _ => List.getLast?_concat _, fun s hs hsn => ?_⟩
          cases hs
          exact absurd rfl hsn
        · exact ⟨fun h => absurd h (by simp), fun s hs _ => by cases hs⟩
      · by_cases h1 : p < f.price_min
        · rw [if_pos h1, if_pos h1]
          refine ⟨fun _ => rfl, fun s hs _ => ?_⟩
          cases hs
          rfl
        · rw [if_neg h1, if_neg h1]
          by_cases h2 : p > f.price_max
          · rw [if_pos h2, if_pos h2]
            refine ⟨fun _ => rfl, fun s hs _ => ?_⟩
            cases hs
            rfl
          · rw [if_neg h2, if_neg h2]
            rcases hnb : fuzzyMatchAny fz f.fuzzy_threshold
                (post.title ++ " " ++ post.selftext) f.neighborhoods with _ | hood <;> dsimp only
            · refine ⟨fun _ => List.getLast?_concat _, fun s hs hsn => ?_⟩
              cases hs
              exact absurd rfl hsn
            · exact ⟨fun h => absurd h (by simp), fun s hs _ => by cases hs⟩
    · refine ⟨fun _ => rfl, fun s hs _ => ?_⟩
      cases hs
      rfl

/-- C3 counterexample: a listing that passes the offering, exclusion and
price checks but fails the neighborhood check fails with three reasons, so
reasons[0] is the informational price reason and not the deciding
no-location reason, refuting the claim for the no-location failure mode. -/
theorem c3_counterexample :
    (filter_listing (fun _ _ => 0)
        (FilterCfg.mk 1500 2800 ["studio"] ["williamsburg"] ["sublet"] 80)
        (Post.mk "[Offering] Nice apartment $2000/mo" "" "Offering")).passed = false ∧
    (filter_listing (fun _ _ => 0)
        (FilterCfg.mk 1500 2800 ["studio"] ["williamsburg"] ["sublet"] 80)
        (Post.mk "[Offering] Nice apartment $2000/mo" "" "Offering")).reasons =
      ["Price $2000 within range", "No matching apartment type found",
        "No matching neighborhood found"] ∧
    (filter_listing (fun _ _ => 0)
        (FilterCfg.mk 1500 2800 ["studio"] ["williamsburg"] ["sublet"] 80)
        (Post.mk "[Offering] Nice apartment $2000/mo" "" "Offering")).reasons.head? =
      some "Price $2000 within range" ∧
    deciding_reason (fun _ _ => 0)
        (FilterCfg.mk 1500 2800 ["studio"] ["williamsburg"] ["sublet"] 80)
        (Post.mk "[Offering] Nice apartment $2000/mo" "" "Offering") =
      some "No matching neighborhood found" := by
  refine ⟨by decide, by decide, by decide, by decide⟩

/-- C3 witness: a not-an-offering failure, where the deciding reason is both
the last and the only element of reasons. -/
theorem c3_witness :
    ((filter_listing (fun _ _ => 0) (FilterCfg.mk 1500 2800 [] [] [] 80)
        (Post.mk "Looking for a studio" "" "")).passed = false →
      (filter_listing (fun _ _ => 0) (FilterCfg.mk 1500 2800 [] [] [] 80)
        (Post.mk "Looking for a studio" "" "")).reasons.getLast? =
        deciding_reason (fun _ _ => 0) (FilterCfg.mk 1500 2800 [] [] [] 80)
          (Post.mk "Looking for a studio" "" "")) ∧
    (∀ s, deciding_reason (fun _ _ => 0) (FilterCfg.mk 1500 2800 [] [] [] 80)
        (Post.mk "Looking for a studio" "" "") = some s →
      s ≠ "No matching neighborhood found" →
      (filter_listing (fun _ _ => 0) (FilterCfg.mk 1500 2800 [] [] [] 80)
        (Post.mk "Looking for a studio" "" "")).reasons = [s]) :=
  c3_deciding_reason_last (fun _ _ => 0) (FilterCfg.mk 1500 2800 [] [] [] 80)
    (Post.mk "Looking for a studio" "" "")

/-- C4 (amended): a listing that passes the offering pre-check and whose
combined title and body matches a configured exclusion term returns
immediately after the exclusion check: the result is failed with the
exclusion reason as its only reason and no extraction or matching
performed.  Without the offering pre-check condition the claim fails, since
a request-like excluded listing returns at the offering check instead (see
the counterexample). -/
theorem c4_exclusion_short_circuit (fz : String → String → Nat) (f : FilterCfg)
    (post : Post) (t : String)
    (hoff : (!check_offering_tag post.flair && looks_like_request post.title) = false)
    (hexc : fuzzyMatchAny fz f.fuzzy_threshold (post.title ++ " " ++ post.selftext)
      f.exclude_terms = some t) :
    filter_listing fz f post =
      { passed := false
        reasons := ["Excluded term found: \x27" ++ t ++ "\x27"]
        extracted_price := none
        matched_type := none
        matched_neighborhood := none } := by
  unfold filter_listing
  dsimp only
  rw [if_neg (by simp [hoff]), hexc]

/-- C4 witness: an offering-flaired sublet listing is rejected on the
exclusion term alone, with no price, type or neighborhood fields set. -/
theorem c4_witness :
    filter_listing (fun _ _ => 0) (FilterCfg.mk 1500 2800 [] [] ["sublet"] 80)
        (Post.mk "[Offering] 1BR Sublet in East Village" "" "Offering") =
      { passed := false
        reasons := ["Excluded term found: \x27sublet\x27"]
        extracted_price := none
        matched_type := none
        matched_neighborhood := none } :=
  c4_exclusion_short_circuit (fun _ _ => 0) (FilterCfg.mk 1500 2800 [] [] ["sublet"] 80)
    (Post.mk "[Offering] 1BR Sublet in East Village" "" "Offering") "sublet"
    (by decide) (by decide)

/-- C4 counterexample: a listing whose combined text matches the configured
exclusion term sublet but which also looks like a request with no offering
flair returns at the offering check, so its reasons list does not contain
the exclusion reason, refuting the unconditional claim. -/
theorem c4_counterexample :
    fuzzyMatchAny (fun _ _ => 0) 80 "Looking for a sublet " ["sublet"] = some "sublet" ∧
    filter_listing (fun _ _ => 0) (FilterCfg.mk 1500 2800 [] [] ["sublet"] 80)
        (Post.mk "Looking for a sublet" "" "") =
      { passed := false
        reasons := ["Not an offering (appears to be a request)"]
        extracted_price := none
        matched_type := none
        matched_neighborhood := none } ∧
    "Excluded term found: \x27sublet\x27" ∉
      (filter_listing (fun _ _ => 0) (FilterCfg.mk 1500 2800 [] [] ["sublet"] 80)
        (Post.mk "Looking for a sublet" "" "")).reasons := by
  refine ⟨by decide, by decide, by decide⟩

/-- Loading back a file that _save wrote yields the Python set of the
stored identifier list. -/
lemma pyLoad_saved (ts : String) (l : List PyAtom) (n : Int) :
    pyLoad (.json (.obj
      [("seen_ids", .arr (l.map atomJson)),
       ("last_updated", .str ts),
       ("count", .num n)])) = .ok (pySetOf l) := by
  unfold pyLoad
  dsimp only [lookupKv]
  rw [if_pos rfl]
  dsimp only [Option.getD_some, pyIter]
  rw [atomsOf_map_atomJson]

/-- The file written by _save, in terms of the trimmed enumeration. -/
lemma pySave_snd (ts : String) (st enum : List PyAtom) :
    (pySave ts st enum).2 = .json (.obj
      [("seen_ids", .arr ((trimSave enum).map atomJson)),
       ("last_updated", .str ts),
       ("count", .num (trimSave enum).length)]) :=
  rfl

/-- The in-memory set after _save, in terms of the trim condition. -/
lemma pySave_fst (ts : String) (st enum : List PyAtom) :
    (pySave ts st enum).1 = if enum.length > 10000 then trimSave enum else st :=
  rfl

/-- Everything kept by the trim was enumerated. -/
lemma trimSave_subset {x : PyAtom} {enum : List PyAtom} (h : x ∈ trimSave enum) :
    x ∈ enum := by
  unfold trimSave at h
  split at h
  · exact List.mem_of_mem_drop h
  · exact h

/-- C7: starting from an empty store, mark_many_seen over three distinct
identifiers followed by a reload of the persisted file yields a store in
which all three are seen and the count is 3, for every enumeration order
the runtime may choose for the set. -/
theorem c7_roundtrip (ts a b c : String) (enum : List PyAtom)
    (hab : a ≠ b) (hac : a ≠ c) (hbc : b ≠ c)
    (hperm : enum.Perm [PyAtom.str a, PyAtom.str b, PyAtom.str c]) :
    ∃ st, pyLoad (mark_many_seen ts [a, b, c] enum []).2 = .ok st ∧
      is_seen st a = true ∧ is_seen st b = true ∧ is_seen st c = true ∧
      get_count st = 3 := by
  have hnd3 : ([PyAtom.str a, PyAtom.str b, PyAtom.str c]).Nodup := by
    simp [hab, hac, hbc]
  have hnodup : enum.Nodup := hperm.nodup_iff.mpr hnd3
  have hlen : enum.length = 3 := hperm.length_eq
  have hins : [a, b, c].foldl (fun s i => pyAdd s (.str i)) ([] : List PyAtom) =
      [PyAtom.str a, PyAtom.str b, PyAtom.str c] := by
    have := foldl_pyAdd_of_nodup [PyAtom.str a, PyAtom.str b, PyAtom.str c] []
      (by simpa using hnd3)
    simpa using this
  have htrim : trimSave enum = enum := by
    unfold trimSave
    rw [hlen]
    exact if_neg (by decide)
  have hsnd : (mark_many_seen ts [a, b, c] enum []).2 = .json (.obj
      [("seen_ids", .arr (enum.map atomJson)),
       ("last_updated", .str ts),
       ("count", .num enum.length)]) := by
    unfold mark_many_seen
    rw [hins, pySave_snd, htrim]
  refine ⟨pySetOf enum, by rw [hsnd]; exact pyLoad_saved ts enum enum.length, ?_, ?_, ?_, ?_⟩
  · unfold is_seen
    rw [decide_eq_true_eq, mem_pySetOf, hperm.mem_iff]
    simp
  · unfold is_seen
    rw [decide_eq_true_eq, mem_pySetOf, hperm.mem_iff]
    simp
  · unfold is_seen
    rw [decide_eq_true_eq, mem_pySetOf, hperm.mem_iff]
    simp
  · unfold get_count
    rw [pySetOf_of_nodup hnodup, hlen]

/-- C7 witness: marking a, b, c as seen on an empty store and reloading the
written file, with the runtime enumerating the set as b, c, a. -/
theorem c7_witness :
    ∃ st, pyLoad (mark_many_seen "2026-01-01" ["a", "b", "c"]
        [PyAtom.str "b", PyAtom.str "c", PyAtom.str "a"] []).2 = .ok st ∧
      is_seen st "a" = true ∧ is_seen st "b" = true ∧ is_seen st "c" = true ∧
      get_count st = 3 :=
  c7_roundtrip "2026-01-01" "a" "b" "c" [PyAtom.str "b", PyAtom.str "c", PyAtom.str "a"]
    (by decide) (by decide) (by decide) (by decide)

/-- C8 (amended): loading tolerates an absent file, an unreadable file and
content that is not valid JSON, yielding the empty set with a logged
message in each case; but a file whose content is valid JSON and not an
object raises an uncaught AttributeError, so tolerance does not extend to
every content that fails to decode into the expected document. -/
theorem c8_load_tolerance :
    pyLoad .absent = .ok [] ∧
    pyLoad .ioError = .ok [] ∧
    pyLoad .badJson = .ok [] ∧
    pyLoad (.json (.arr [])) = .error .attributeError :=
  ⟨rfl, rfl, rfl, rfl⟩

/-- C8 counterexample: a file holding the valid JSON document [] cannot be
decoded into the expected object, yet _load raises AttributeError instead
of yielding the empty set. -/
theorem c8_counterexample :
    pyLoad (.json (.arr [])) = .error .attributeError ∧
    pyLoad (.json (.arr [])) ≠ .ok [] :=
  ⟨rfl, fun h => by cases h⟩

/-- C2 (amended): for every save, the stored identifier set holds at most
10000 identifiers afterwards and is a subset of the identifiers present
before the save, and a reload of the written file sees exactly the
identifiers kept by the trim of the runtime enumeration — but which
identifiers survive is determined by the unspecified iteration order of the
Python set, not by insertion order (see the counterexample, where the
earliest-inserted identifier survives and the most recent is evicted). -/
theorem c2_save_trim (ts : String) (st enum : List PyAtom)
    (hperm : enum.Perm st) :
    (pySave ts st enum).1.length ≤ 10000 ∧
    (∀ x ∈ (pySave ts st enum).1, x ∈ st) ∧
    ∃ s, pyLoad (pySave ts st enum).2 = .ok s ∧
      ∀ x, x ∈ s ↔ x ∈ trimSave enum := by
  refine ⟨?_, ?_, ?_⟩
  · show (if enum.length > 10000 then trimSave enum else st).length ≤ 10000
    by_cases hlen : enum.length > 10000
    · rw [if_pos hlen]
      unfold trimSave
      rw [if_pos hlen, List.length_drop, Nat.sub_sub_self (le_of_lt hlen)]
    · rw [if_neg hlen]
      rw [← hperm.length_eq]
      exact le_of_not_lt hlen
  · show ∀ x ∈ (if enum.length > 10000 then trimSave enum else st), x ∈ st
    by_cases hlen : enum.length > 10000
    · rw [if_pos hlen]
      intro x hx
      exact hperm.mem_iff.mp (trimSave_subset hx)
    · rw [if_neg hlen]
      intro x hx
      exact hx
  · refine ⟨pySetOf (trimSave enum), ?_, ?_⟩
    · rw [pySave_snd]
      exact pyLoad_saved ts (trimSave enum) (trimSave enum).length
    · intro x
      exact mem_pySetOf

/-- C2 witness: saving a singleton store leaves it intact, within the cap,
and reloading sees the same single identifier. -/
theorem c2_witness :
    (pySave "2026-01-01" [PyAtom.str "x"] [PyAtom.str "x"]).1.length ≤ 10000 ∧
    (∀ y ∈ (pySave "2026-01-01" [PyAtom.str "x"] [PyAtom.str "x"]).1,
      y ∈ [PyAtom.str "x"]) ∧
    ∃ s, pyLoad (pySave "2026-01-01" [PyAtom.str "x"] [PyAtom.str "x"]).2 = .ok s ∧
      ∀ y, y ∈ s ↔ y ∈ trimSave [PyAtom.str "x"] :=
  c2_save_trim "2026-01-01" [PyAtom.str "x"] [PyAtom.str "x"] (by decide)

/-- C2 counterexample: insert the 10001 distinct identifiers aId 0 (first)
through aId 10000 (last) into an empty store.  The runtime may enumerate
the set in reverse insertion order — a permutation of the set, as the first
two conjuncts certify — and then the save keeps the 10000 OLDEST
identifiers: the earliest-inserted aId 0 is still seen, while the
most-recently-inserted aId 10000 is evicted, both in memory and after a
reload of the written file.  This refutes the claim that the oldest
identifiers are evicted first and only the most recent survive. -/
theorem c2_counterexample :
    (((List.range 10001).map aId).foldl (fun s i => pyAdd s (.str i))
        ([] : List PyAtom) = c2Inserted) ∧
    c2Inserted.reverse.Perm c2Inserted ∧
    is_seen (mark_many_seen "2026-01-01" ((List.range 10001).map aId)
        c2Inserted.reverse []).1 (aId 0) = true ∧
    is_seen (mark_many_seen "2026-01-01" ((List.range 10001).map aId)
        c2Inserted.reverse []).1 (aId 10000) = false ∧
    (∃ s, pyLoad (mark_many_seen "2026-01-01" ((List.range 10001).map aId)
        c2Inserted.reverse []).2 = .ok s ∧
      is_seen s (aId 0) = true ∧ is_seen s (aId 10000) = false) := by
  have haId : Function.Injective aId := by
    intro m n h
    have h2 : List.replicate m 'a' = List.replicate n 'a' := congrArg String.data h
    simpa using congrArg List.length h2
  have hAtom : Function.Injective c2Atom := by
    intro m n h
    have := PyAtom.str.inj h
    exact haId this
  have hNodup : c2Inserted.Nodup :=
    List.Nodup.map hAtom (List.nodup_range 10001)
  have hins : ((List.range 10001).map aId).foldl (fun s i => pyAdd s (.str i))
      ([] : List PyAtom) = c2Inserted := by
    have h1 : ((List.range 10001).map aId).foldl (fun s i => pyAdd s (.str i))
        ([] : List PyAtom) = c2Inserted.foldl pyAdd [] := by
      unfold c2Inserted
      rw [List.foldl_map, List.foldl_map]
      congr 1
    rw [h1, foldl_pyAdd_of_nodup c2Inserted [] (by simpa using hNodup)]
    simp
  have hlenrev : c2Inserted.reverse.length = 10001 := by
    rw [List.length_reverse]
    unfold c2Inserted
    rw [List.length_map, List.length_range]
  have hr : List.range 10001 = List.range 10000 ++ [10000] := List.range_succ 10000
  have htrim : trimSave c2Inserted.reverse = ((List.range 10000).map c2Atom).reverse := by
    unfold trimSave
    rw [hlenrev, if_pos (by decide)]
    have h1 : (10001 : Nat) - 10000 = 1 := by decide
    rw [h1]
    show (c2Inserted.reverse).drop 1 = _
    unfold c2Inserted
    rw [hr, List.map_append, List.reverse_append]
    simp
  have hmemtrim0 : PyAtom.str (aId 0) ∈ ((List.range 10000).map c2Atom).reverse := by
    rw [List.mem_reverse]
    exact List.mem_map.mpr ⟨0, List.mem_range.mpr (by decide), rfl⟩
  have hmemtrim1 : PyAtom.str (aId 10000) ∉ ((List.range 10000).map c2Atom).reverse := by
    rw [List.mem_reverse]
    intro h
    rcases List.mem_map.mp h with ⟨m, hm, heq⟩
    have : m = 10000 := hAtom heq
    rw [this] at hm
    exact absurd (List.mem_range.mp hm) (by decide)
  have hfst : (mark_many_seen "2026-01-01" ((List.range 10001).map aId)
      c2Inserted.reverse []).1 = ((List.range 10000).map c2Atom).reverse := by
    unfold mark_many_seen
    rw [hins, pySave_fst, hlenrev, if_pos (by decide), htrim]
  have hsnd : (mark_many_seen "2026-01-01" ((List.range 10001).map aId)
      c2Inserted.reverse []).2 = .json (.obj
      [("seen_ids", .arr ((((List.range 10000).map c2Atom).reverse).map atomJson)),
       ("last_updated", .str "2026-01-01"),
       ("count", .num (((List.range 10000).map c2Atom).reverse).length)]) := by
    unfold mark_many_seen
    rw [hins, pySave_snd, htrim]
  have hTrimNodup : (((List.range 10000).map c2Atom).reverse).Nodup := by
    rw [List.nodup_reverse]
    exact List.Nodup.map hAtom (List.nodup_range 10000)
  refine ⟨hins, List.reverse_perm c2Inserted, ?_, ?_, ?_⟩
  · rw [hfst]
    unfold is_seen
    rw [decide_eq_true_eq]
    exact hmemtrim0
  · rw [hfst]
    unfold is_seen
    rw [decide_eq_false_iff_not]
    exact hmemtrim1
  · refine ⟨((List.range 10000).map c2Atom).reverse, ?_, ?_, ?_⟩
    · rw [hsnd]
      rw [pyLoad_saved "2026-01-01" (((List.range 10000).map c2Atom).reverse) _]
      rw [pySetOf_of_nodup hTrimNodup]
    · unfold is_seen
      rw [decide_eq_true_eq]
      exact hmemtrim0
    · unfold is_seen
      rw [decide_eq_false_iff_not]
      exact hmemtrim1

/-- Model validation: the price-extraction vectors of test_filter.py
evaluate as the repository expects (the last vector prints None there). -/
lemma extract_price_test_vectors :
    extract_price "$2,500/mo" = some 2500 ∧
    extract_price "$2500" = some 2500 ∧
    extract_price "2500/month" = some 2500 ∧
    extract_price "rent: $2100" = some 2100 ∧
    extract_price "asking $1800" = some 1800 ∧
    extract_price "$2.5k/mo" = none := by
  refine ⟨by decide, by decide, by decide, by decide, by decide, by decide⟩

set_option maxRecDepth 8000 in
/-- Model validation: the first passing test post of test_filter.py passes
the deterministic filter under the configuration of that file, and its
too-expensive test post fails. -/
lemma filter_listing_test_vectors :
    (filter_listing (fun _ _ => 0)
      (mkApartmentFilter 1500 2800
        ["studio", "1br", "1 br", "1 bed", "1 bedroom", "one bedroom"]
        ["williamsburg", "east village", "lower east side", "les", "bushwick"]
        ["sublease", "sublet", "roommate", "room for rent", "shared"] 80)
      (Post.mk "[Offering] Beautiful 1BR in East Village - $2400/mo"
        "Spacious one bedroom apartment, renovated kitchen, laundry in building."
        "Offering")).passed = true ∧
    (filter_listing (fun _ _ => 0)
      (mkApartmentFilter 1500 2800
        ["studio", "1br", "1 br", "1 bed", "1 bedroom", "one bedroom"]
        ["williamsburg", "east village", "lower east side", "les", "bushwick"]
        ["sublease", "sublet", "roommate", "room for rent", "shared"] 80)
      (Post.mk "[Offering] 1BR in Williamsburg - $4500/mo"
        "Luxury apartment with amazing views." "Offering")).passed = false := by
  refine ⟨by decide, by decide⟩

end ApartmentScraper
